import Mathlib

/-!
Shallow embedding of the worker-supervision / job-dispatch core of the
Video-Management-System repository, together with theorems settling the
frozen claims about its specification.

Sources embedded:
* `src/unnamed/part_001` — the Alert mongoose model (pre-save expiry
  middleware, instance transitions, static creators, expiry sweep).
* `src/unnamed/part_003` — `AIService` (priority processing queue,
  `processStream` submission, `startQueueProcessing` drain tick).
* `src/server/services/StreamService.js` — active-feed registry
  (`startStream` / `stopStream` / `monitorActiveStreams`).
* `src/server/services/AlertService.js` — `checkForAlerts` health pass.
* `src/server/routes/streams.js` (embedded `streamWorker.js` section) —
  `StreamWorker.start` / `processFrame` / `captureFrame`.
* `src/server/routes/alerts.js` — bulk status updates.

Conventions: JS timestamps (`Date.now()`) are `Nat` milliseconds; mongoose
documents are Lean structures; a mongoose collection is a `List` of
documents in insertion order, `find` being the first match; JS `Map`s are
association lists in insertion order.  Free-form payload bags
(`parameters`, `data.metadata`) that no claim inspects are omitted from
the structures; every field a claim touches is embedded.
-/

namespace VMS

/-! ## Alert model — `src/unnamed/part_001` -/

/-- One entry of `data.detections` on an alert / an AI result
(label + confidence are the fields the services read). -/
structure Detection where
  label : String
  confidence : ℚ
deriving DecidableEq, Repr

/-- An `Alert` document (fields of `alertSchema` used by the services and
routes; the free-form `data.metadata` / `location` bags are omitted). -/
structure Alert where
  id : String
  streamId : String
  type : String
  category : String
  title : String
  message : String
  severity : String
  status : String
  detections : List Detection
  timestamp : Nat
  acknowledgedAt : Option Nat
  acknowledgedBy : Option String
  resolvedAt : Option Nat
  resolvedBy : Option String
  expiresAt : Option Nat
deriving DecidableEq, Repr

/-- `24 * 60 * 60 * 1000` ms — the default expiry horizon from the
pre-save middleware. -/
def dayMs : Nat := 24 * 60 * 60 * 1000

/-- First step of `alertSchema.pre("save")`: give non-critical alerts a
default expiry 24h from now when none is set. -/
def presaveDefaultExpiry (a : Alert) (now : Nat) : Alert :=
  if a.expiresAt = none ∧ a.severity ≠ "critical"
  then { a with expiresAt := some (now + dayMs) } else a

/-- Second step of `alertSchema.pre("save")`: force `expiresAt` to null
on critical alerts. -/
def presaveCritical (a : Alert) : Alert :=
  if a.severity = "critical" then { a with expiresAt := none } else a

/-- `alertSchema.pre("save")`: both steps in source order. -/
def presaveAlert (a : Alert) (now : Nat) : Alert :=
  presaveCritical (presaveDefaultExpiry a now)

/-- `alert.save()` on a new document: run the pre-save middleware and
append to the collection. -/
def saveNewAlert (db : List Alert) (a : Alert) (now : Nat) : List Alert :=
  db ++ [presaveAlert a now]

/-- The document `createDetectionAlert` constructs before saving
(status defaults to `"active"`, severity `"high"` iff more than 5
detections; the database-assigned `_id` carries no information the
services read, and is modelled as `""`). -/
def detectionAlertDoc (streamId : String) (detections : List Detection)
    (modelType : String) (now : Nat) : Alert :=
  { id := ""
    streamId := streamId
    type := "detection"
    category := modelType
    title := toString detections.length ++ " objects detected"
    message := "AI model detected " ++ toString detections.length ++ " objects in stream"
    severity := if 5 < detections.length then "high" else "medium"
    status := "active"
    detections := detections
    timestamp := now
    acknowledgedAt := none, acknowledgedBy := none
    resolvedAt := none, resolvedBy := none
    expiresAt := none }

/-- `alertSchema.statics.createDetectionAlert`: always constructs a
fresh alert and saves it — there is no lookup for an existing active
alert with the same key. -/
def createDetectionAlert (db : List Alert) (streamId : String)
    (detections : List Detection) (modelType : String) (now : Nat) : List Alert :=
  saveNewAlert db (detectionAlertDoc streamId detections modelType now) now

/-- The document `createSystemAlert` constructs before saving. -/
def systemAlertDoc (streamId ty title message severity : String) : Alert :=
  { id := ""
    streamId := streamId
    type := ty
    category := "system"
    title := title
    message := message
    severity := severity
    status := "active"
    detections := []
    timestamp := 0
    acknowledgedAt := none, acknowledgedBy := none
    resolvedAt := none, resolvedBy := none
    expiresAt := none }

/-- `alertSchema.statics.createSystemAlert` (the document timestamp
defaults to the save time). -/
def createSystemAlert (db : List Alert) (streamId ty title message severity : String)
    (now : Nat) : List Alert :=
  saveNewAlert db { systemAlertDoc streamId ty title message severity with timestamp := now } now

/-- The update condition of `cleanExpiredAlerts`: `expiresAt < now`
(a null `expiresAt` never matches a `$lt` range query) and status in
`["active", "acknowledged"]`. -/
def expiredNow (a : Alert) (now : Nat) : Bool :=
  (match a.expiresAt with
   | some e => decide (e < now)
   | none => false)
  && (a.status == "active" || a.status == "acknowledged")

/-- `alertSchema.statics.cleanExpiredAlerts`: `updateMany` setting
`status := "dismissed"` on every matching document. -/
def cleanExpiredAlerts (db : List Alert) (now : Nat) : List Alert :=
  db.map (fun a => if expiredNow a now then { a with status := "dismissed" } else a)

/-- `alertSchema.methods.acknowledge` followed by `save` (the pre-save
middleware runs again on save). The status is assigned unconditionally. -/
def acknowledgeAlert (a : Alert) (who : String) (now : Nat) : Alert :=
  presaveAlert { a with status := "acknowledged", acknowledgedAt := some now,
                        acknowledgedBy := some who } now

/-- `alertSchema.methods.resolve` followed by `save`. -/
def resolveAlert (a : Alert) (who : String) (now : Nat) : Alert :=
  presaveAlert { a with status := "resolved", resolvedAt := some now,
                        resolvedBy := some who } now

/-- `alertSchema.methods.dismiss` followed by `save`. -/
def dismissAlert (a : Alert) (now : Nat) : Alert :=
  presaveAlert { a with status := "dismissed" } now

/-- `POST /api/alerts/bulk-acknowledge`: `updateMany({_id ∈ ids})`
setting status to acknowledged, regardless of the current status. -/
def bulkAcknowledge (db : List Alert) (ids : List String) (who : String)
    (now : Nat) : List Alert :=
  db.map (fun a => if a.id ∈ ids
    then { a with status := "acknowledged", acknowledgedAt := some now,
                  acknowledgedBy := some who }
    else a)

/-- `Alert.findOne({streamId, type, title, status: "active"})` — first
matching document. -/
def findActiveAlert (db : List Alert) (streamId ty title : String) : Option Alert :=
  db.find? (fun a =>
    a.streamId == streamId && a.type == ty && a.title == title && a.status == "active")

/-- Number of `active`-status alerts for a given (feed id, title) pair. -/
def countActiveAlerts (db : List Alert) (streamId title : String) : Nat :=
  (db.filter (fun a => a.streamId == streamId && a.title == title && a.status == "active")).length

/-! ## Stream documents — `src/unnamed/part_002` and the fields the
services read (`source.type`, `metadata.priority`, `status`,
`statistics.{lastProcessed, errors, totalFrames, uptime}`). -/

/-- A `Stream` document. -/
structure StreamRec where
  id : String
  name : String
  status : String
  sourceType : String
  priority : Option String
  lastProcessed : Option Nat
  errors : Nat
  totalFrames : Nat
  uptime : Nat
deriving DecidableEq, Repr

/-- `Stream.findById` — first document with the given id. -/
def findStream (db : List StreamRec) (id : String) : Option StreamRec :=
  db.find? (fun st => st.id == id)

/-- `stream.status = s; await stream.save()` on the document returned by
`findById`: update the first matching document in place. -/
def setStreamStatusFirst : List StreamRec → String → String → List StreamRec
  | [], _, _ => []
  | st :: rest, id, s =>
    if st.id = id then { st with status := s } :: rest
    else st :: setStreamStatusFirst rest id s

/-- `stream.statistics.uptime = u; await stream.save()` on the document
held in the active-streams registry. -/
def setStreamUptimeFirst : List StreamRec → String → Nat → List StreamRec
  | [], _, _ => []
  | st :: rest, id, u =>
    if st.id = id then { st with uptime := u } :: rest
    else st :: setStreamUptimeFirst rest id u

/-- JS `stream.metadata.priority || "medium"` (the empty string is falsy). -/
def jsOrMedium : Option String → String
  | some p => if p = "" then "medium" else p
  | none => "medium"

/-! ## AIService — `src/unnamed/part_003` -/

/-- One entry of the `AIService.models` map (the `parameters` descriptor
bag is omitted; no claim reads it). -/
structure ModelDef where
  id : String
  supportedTypes : List String
  lastUsed : Option Nat
  processingCount : Nat
deriving DecidableEq, Repr

/-- The source types every model definition in `loadModels` declares. -/
def allSourceTypes : List String := ["rtsp", "rtmp", "http", "file", "camera"]

/-- The four models registered by `AIService.loadModels` (each supports
all five source types; stats start empty). -/
def defaultModels : List ModelDef :=
  [ { id := "object-detection", supportedTypes := allSourceTypes,
      lastUsed := none, processingCount := 0 },
    { id := "defect-analysis", supportedTypes := allSourceTypes,
      lastUsed := none, processingCount := 0 },
    { id := "face-recognition", supportedTypes := allSourceTypes,
      lastUsed := none, processingCount := 0 },
    { id := "motion-detection", supportedTypes := allSourceTypes,
      lastUsed := none, processingCount := 0 } ]

/-- A queue item built by `AIService.processStream` (the merged
`parameters` bag is omitted; scheduling never reads it). -/
structure Job where
  id : String
  streamId : String
  modelType : String
  timestamp : Nat
  priority : String
deriving DecidableEq, Repr

/-- The mutable fields of the `AIService` singleton. -/
structure AIServiceState where
  models : List ModelDef
  processingQueue : List Job
  isProcessing : Bool
deriving DecidableEq, Repr

/-- `priorityOrder[p] || 2` — the numeric rank used by the drain-tick
comparator; priorities outside the four named values rank as 2
(the rank of `"medium"`). -/
def effPriority (p : String) : Nat :=
  if p = "critical" then 4
  else if p = "high" then 3
  else if p = "medium" then 2
  else if p = "low" then 1
  else 2

/-- `cmp(a, b) ≤ 0` for the comparator in `startQueueProcessing`:
strictly higher rank first, then earlier submission timestamp. -/
def jobLE (a b : Job) : Prop :=
  effPriority b.priority < effPriority a.priority
  ∨ (effPriority a.priority = effPriority b.priority ∧ a.timestamp ≤ b.timestamp)

instance : DecidableRel jobLE := fun _ _ =>
  inferInstanceAs (Decidable (_ ∨ _))

instance : IsTotal Job jobLE where
  total a b := by
    unfold jobLE
    rcases Nat.lt_trichotomy (effPriority a.priority) (effPriority b.priority) with h | h | h
    · exact Or.inr (Or.inl h)
    · rcases Nat.le_total a.timestamp b.timestamp with ht | ht
      · exact Or.inl (Or.inr ⟨h, ht⟩)
      · exact Or.inr (Or.inr ⟨h.symm, ht⟩)
    · exact Or.inl (Or.inl h)

instance : IsTrans Job jobLE where
  trans a b c hab hbc := by
    unfold jobLE at *
    rcases hab with h1 | ⟨e1, t1⟩
    · rcases hbc with h2 | ⟨e2, _⟩
      · exact Or.inl (h2.trans h1)
      · exact Or.inl (e2 ▸ h1)
    · rcases hbc with h2 | ⟨e2, t2⟩
      · exact Or.inl (e1 ▸ h2)
      · exact Or.inr ⟨e1.trans e2, t1.trans t2⟩

/-- One tick of `startQueueProcessing`: skip when a job is still in
flight or the queue is empty; otherwise sort the queue by the priority
comparator and `shift()` the head for execution.  Returns the new state
and the job handed to `processQueueItem` (if any). -/
def drainTick (s : AIServiceState) : AIServiceState × Option Job :=
  if s.isProcessing || s.processingQueue.isEmpty then (s, none)
  else
    match s.processingQueue.insertionSort jobLE with
    | [] => (s, none)
    | j :: rest => ({ s with processingQueue := rest }, some j)

/-- `estimateProcessingTime`: `baseTimes[modelType] || 1000`. -/
def estimateProcessingTime (modelType : String) : Nat :=
  if modelType = "object-detection" then 1000
  else if modelType = "defect-analysis" then 1500
  else if modelType = "face-recognition" then 2000
  else if modelType = "motion-detection" then 800
  else 1000

/-- The response object of a successful `processStream` call. -/
structure SubmitReceipt where
  queueId : String
  status : String
  estimatedTime : Nat
deriving DecidableEq, Repr

/-- The queue item `processStream` constructs for a stream found in the
database at time `now`. -/
def mkQueueItem (streamId modelType : String) (st : StreamRec) (now : Nat) : Job :=
  { id := streamId ++ "-" ++ modelType ++ "-" ++ toString now
    streamId := streamId
    modelType := modelType
    timestamp := now
    priority := jsOrMedium st.priority }

/-- `AIService.processStream`: validate the model id, look up the
stream, validate the source type, then unconditionally `push` a queue
item (there is no capacity check) and bump the model statistics. -/
def processStream (s : AIServiceState) (db : List StreamRec)
    (streamId modelType : String) (now : Nat) :
    AIServiceState × Except String SubmitReceipt :=
  match s.models.find? (fun m => m.id == modelType) with
  | none => (s, .error ("AI model " ++ modelType ++ " not found"))
  | some model =>
    match findStream db streamId with
    | none => (s, .error "Stream not found")
    | some st =>
      if st.sourceType ∈ model.supportedTypes then
        let item := mkQueueItem streamId modelType st now
        ({ s with
            processingQueue := s.processingQueue ++ [item]
            models := s.models.map (fun m => if m.id = modelType
              then { m with lastUsed := some now, processingCount := m.processingCount + 1 }
              else m) },
          .ok { queueId := item.id, status := "queued"
                estimatedTime := estimateProcessingTime modelType })
      else
        (s, .error ("Model " ++ modelType ++ " does not support stream type " ++ st.sourceType))

/-! ## StreamService — `src/server/services/StreamService.js` -/

/-- The value stored in the `activeStreams` map for a running feed. -/
structure ActiveInfo where
  stream : StreamRec
  startTime : Nat
  frameCount : Nat
  lastFrame : Option Nat
deriving DecidableEq, Repr

/-- The mutable fields of the `StreamService` singleton plus the stream
collection it reads and writes (`workers` holds the ids that own a
worker thread; both JS `Map`s are association in insertion order). -/
structure ServiceState where
  workers : List String
  activeStreams : List (String × ActiveInfo)
  db : List StreamRec
deriving DecidableEq, Repr

/-- `activeStreams.get(id)` — the registry entry for a feed id. -/
def lookupActive (reg : List (String × ActiveInfo)) (id : String) : Option ActiveInfo :=
  (reg.find? (fun e => e.1 == id)).map (fun e => e.2)

/-- Number of registry entries recorded under a feed id. -/
def countActiveEntries (reg : List (String × ActiveInfo)) (id : String) : Nat :=
  (reg.filter (fun e => e.1 == id)).length

/-- `StreamService.startStream`: `findById` (throwing `Stream not found`
when absent); when the feed is already in `activeStreams`, log a warning
and return the stream unchanged (no error, no second worker); otherwise
spawn a worker, register the runtime entry, and persist status
`"active"`. -/
def startStream (s : ServiceState) (now : Nat) (streamId : String) :
    ServiceState × Except String StreamRec :=
  match findStream s.db streamId with
  | none => (s, .error "Stream not found")
  | some st =>
    if (lookupActive s.activeStreams streamId).isSome then
      (s, .ok st)
    else
      let stActive := { st with status := "active" }
      ({ workers := s.workers ++ [streamId]
         activeStreams := s.activeStreams ++
           [(streamId, { stream := stActive, startTime := now,
                         frameCount := 0, lastFrame := none })]
         db := setStreamStatusFirst s.db streamId "active" },
       .ok stActive)

/-- `StreamService.stopStream`: terminate and drop the worker if one
exists, drop the registry entry, persist status `"inactive"` when the
document exists, and return `true` in every case. -/
def stopStream (s : ServiceState) (streamId : String) : ServiceState × Bool :=
  let workers1 := s.workers.filter (fun w => w ≠ streamId)
  let active1 := s.activeStreams.filter (fun e => e.1 ≠ streamId)
  match findStream s.db streamId with
  | some _ =>
    ({ workers := workers1, activeStreams := active1,
       db := setStreamStatusFirst s.db streamId "inactive" }, true)
  | none =>
    ({ workers := workers1, activeStreams := active1, db := s.db }, true)

/-- The staleness test of `monitorActiveStreams`:
`lastFrame && (now - lastFrame) > 30000`. -/
def staleAt (now : Nat) (info : ActiveInfo) : Bool :=
  match info.lastFrame with
  | some lf => decide (30000 < now - lf)
  | none => false

/-- The alert `monitorActiveStreams` creates for a stale feed
(`createSystemAlert` with type warning, fixed title, severity medium). -/
def mkUnresponsiveAlert (db : List Alert) (streamId name : String) (now : Nat) :
    List Alert :=
  createSystemAlert db streamId "warning" "Stream Unresponsive"
    ("Stream " ++ name ++ " has not processed frames in 30 seconds") "medium" now

/-- The body of the `monitorActiveStreams` loop for one registry entry:
unconditionally alert when stale (no per-episode latch), then persist
the recomputed uptime. -/
def monitorStep (now : Nat) :
    List StreamRec × List Alert → String × ActiveInfo → List StreamRec × List Alert :=
  fun dba e =>
    let alerts1 := if staleAt now e.2
      then mkUnresponsiveAlert dba.2 e.1 e.2.stream.name now
      else dba.2
    (setStreamUptimeFirst dba.1 e.1 ((now - e.2.startTime) / 1000), alerts1)

/-- `StreamService.monitorActiveStreams`: one health sweep over the
registry, returning the updated stream collection and alert
collection. -/
def monitorActiveStreams (s : ServiceState) (alerts : List Alert) (now : Nat) :
    List StreamRec × List Alert :=
  s.activeStreams.foldl (monitorStep now) (s.db, alerts)

/-! ## AlertService health pass — `src/server/services/AlertService.js` -/

/-- The unresponsive-stream half of `AlertService.checkForAlerts` for one
active stream: alert when `lastProcessed` is more than 5 minutes old,
but only if no active alert with the same (stream, type, title) exists —
an existing alert is left untouched (skip, not refresh). -/
def checkStreamUnresponsive (db : List Alert) (st : StreamRec) (now : Nat) :
    List Alert :=
  match st.lastProcessed with
  | none => db
  | some lp =>
    if 5 * 60 * 1000 < now - lp then
      match findActiveAlert db st.id "warning" "Stream Unresponsive" with
      | some _ => db
      | none =>
        createSystemAlert db st.id "warning" "Stream Unresponsive"
          ("Stream " ++ st.name ++ " has not processed frames for " ++
            toString ((now - lp) / 1000) ++ " seconds") "medium" now
    else db

/-- The error-rate half of `checkForAlerts` for one active stream:
alert when `errors / totalFrames > 0.1`, again skipping when an active
alert with the matching key exists. -/
def checkHighErrorRate (db : List Alert) (st : StreamRec) (now : Nat) : List Alert :=
  if st.totalFrames ≠ 0 then
    if (st.errors : ℚ) / (st.totalFrames : ℚ) > 1 / 10 then
      match findActiveAlert db st.id "error" "High Error Rate" with
      | some _ => db
      | none =>
        createSystemAlert db st.id "error" "High Error Rate"
          ("Stream " ++ st.name ++ " has a high error rate") "high" now
    else db
  else db

/-- `AlertService.checkForAlerts`: both passes over the streams whose
status is `"active"`. -/
def checkForAlerts (streams : List StreamRec) (db : List Alert) (now : Nat) :
    List Alert :=
  let active := streams.filter (fun st => st.status == "active")
  let db1 := active.foldl (fun d st => checkStreamUnresponsive d st now) db
  active.foldl (fun d st => checkHighErrorRate d st now) db1

/-! ## StreamWorker — the `streamWorker.js` portion embedded in
`src/server/routes/streams.js` -/

/-- One `aiModels` entry of the worker configuration. -/
structure AIModelCfg where
  modelType : String
  isActive : Bool
deriving DecidableEq, Repr

/-- The `streamData` the worker is constructed with (`settings.fps`,
`settings.resolution`, `source.type`, `aiModels`). -/
structure WorkerData where
  name : String
  sourceType : String
  fps : ℚ
  resolutionW : ℤ
  resolutionH : ℤ
  aiModels : List AIModelCfg
deriving DecidableEq, Repr

/-- A message posted to the parent via `sendMessage` (payload reduced to
the fields the supervisor reads). -/
inductive WorkerMsg where
  | statusUpdate (status : String)
  | frameProcessed (frameNumber : Nat)
  | aiResult (modelType : String) (frameNumber : Nat)
  | errorMsg (msg : String)
deriving DecidableEq, Repr

/-- A captured frame (the simulated capture fills width/height from the
configured resolution). -/
structure Frame where
  width : ℤ
  height : ℤ
  timestamp : Nat
deriving DecidableEq, Repr

/-- The mutable fields of a `StreamWorker`, plus the outbound message
trace (`processingInterval` is the `setInterval` period in ms; `none`
encodes the non-finite JS quotient `1000/0`). -/
structure WorkerState where
  streamData : WorkerData
  isRunning : Bool
  frameCount : Nat
  lastFrameTime : Option Nat
  processingInterval : Option ℚ
  messages : List WorkerMsg
deriving DecidableEq, Repr

/-- JS division as used for the `setInterval` period: `none` when the
divisor is zero (JS produces `Infinity`), otherwise the exact quotient. -/
def jsDivQ (a b : ℚ) : Option ℚ :=
  if b = 0 then none else some (a / b)

/-- `StreamWorker.start`: no validation of fps or resolution — set the
running flag, schedule the tick at `1000 / fps` ms, and post
`status_update: active`. -/
def startWorker (w : WorkerState) (now : Nat) : WorkerState :=
  { w with
      isRunning := true
      lastFrameTime := some now
      processingInterval := jsDivQ 1000 w.streamData.fps
      messages := w.messages ++ [.statusUpdate "active"] }

/-- `StreamWorker.captureFrame`: the switch over `source.type`; every
recognized kind returns a simulated frame, an unrecognized kind throws,
is caught, and yields `null` — the failure is swallowed. -/
def captureFrame (w : WorkerState) (now : Nat) : Option Frame :=
  if w.streamData.sourceType ∈ allSourceTypes then
    some { width := w.streamData.resolutionW,
           height := w.streamData.resolutionH, timestamp := now }
  else none

/-- `StreamWorker.processFrameWithAI`: one `ai_result` message per
active model. -/
def processFrameWithAI (w : WorkerState) : WorkerState :=
  { w with messages := w.messages ++
      ((w.streamData.aiModels.filter (fun m => m.isActive)).map
        (fun m => .aiResult m.modelType w.frameCount)) }

/-- `StreamWorker.processFrame`: skip when stopped; increment the frame
counter; on a null capture do nothing further (no error event, no
failure counter, no stop); on success run the AI models, refresh
`lastFrameTime`, and post `frame_processed`. -/
def processFrame (w : WorkerState) (now : Nat) : WorkerState :=
  if w.isRunning = false then w
  else
    let w1 := { w with frameCount := w.frameCount + 1 }
    match captureFrame w1 now with
    | none => w1
    | some _ =>
      let w2 := processFrameWithAI w1
      { w2 with
          lastFrameTime := some now
          messages := w2.messages ++ [.frameProcessed w2.frameCount] }

/-- Repeated acquisition ticks at the given tick times. -/
def runTicks (w : WorkerState) (ticks : List Nat) : WorkerState :=
  ticks.foldl processFrame w

/-! ## Concrete fixtures used by witnesses and counterexamples -/

/-- A stream document as the seed data creates it. -/
def exStream : StreamRec :=
  { id := "f1", name := "Front Gate", status := "inactive", sourceType := "rtsp",
    priority := none, lastProcessed := none, errors := 0, totalFrames := 0, uptime := 0 }

/-- A one-stream collection. -/
def exDb : List StreamRec := [exStream]

/-- An empty stream service. -/
def exService : ServiceState := { workers := [], activeStreams := [], db := exDb }

/-- The service after `startStream` has been called once for `"f1"`. -/
def exServiceStarted : ServiceState := (startStream exService 0 "f1").1

/-- A low-priority job submitted at t=0. -/
def jobLow : Job :=
  { id := "f1-object-detection-0", streamId := "f1", modelType := "object-detection",
    timestamp := 0, priority := "low" }

/-- A critical-priority job submitted at t=1. -/
def jobCritical : Job :=
  { id := "f2-object-detection-1", streamId := "f2", modelType := "object-detection",
    timestamp := 1, priority := "critical" }

/-- A medium-priority job submitted at t=2. -/
def jobMedium : Job :=
  { id := "f3-object-detection-2", streamId := "f3", modelType := "object-detection",
    timestamp := 2, priority := "medium" }

/-- An idle AI service whose queue received [low, critical, medium] in
that order. -/
def exAIState : AIServiceState :=
  { models := defaultModels, processingQueue := [jobLow, jobCritical, jobMedium],
    isProcessing := false }

/-- An idle AI service whose queue already holds 1000 jobs — the
capacity the specification names. -/
def exAIStateFull : AIServiceState :=
  { models := defaultModels, processingQueue := List.replicate 1000 jobLow,
    isProcessing := false }

/-- One detection above every confidence threshold. -/
def exDetections : List Detection := [{ label := "person", confidence := 9 / 10 }]

/-- The alert collection after two outcomes from feed `"f1"` with the
same title were processed through `createDetectionAlert`. -/
def exAlertsTwice : List Alert :=
  createDetectionAlert (createDetectionAlert [] "f1" exDetections "object-detection" 10)
    "f1" exDetections "object-detection" 20

/-- A resolved alert (terminal under the claimed state machine). -/
def exResolvedAlert : Alert :=
  { id := "a1", streamId := "f1", type := "warning", category := "system",
    title := "Stream Unresponsive", message := "m", severity := "medium",
    status := "resolved", detections := [], timestamp := 0,
    acknowledgedAt := none, acknowledgedBy := none,
    resolvedAt := some 3, resolvedBy := some "ops", expiresAt := some 100 }

/-- An active stream document whose `lastProcessed` is long stale. -/
def exActiveStream : StreamRec :=
  { exStream with status := "active", lastProcessed := some 0 }

/-- An alert collection already holding one active
"Stream Unresponsive" warning for feed `"f1"`. -/
def exUnrespDb : List Alert :=
  createSystemAlert [] "f1" "warning" "Stream Unresponsive" "m" "medium" 1

/-- A freshly built medium-severity alert with no explicit expiry. -/
def exMediumAlert : Alert :=
  { id := "a2", streamId := "f1", type := "detection", category := "object-detection",
    title := "1 objects detected", message := "m", severity := "medium",
    status := "active", detections := [], timestamp := 0,
    acknowledgedAt := none, acknowledgedBy := none,
    resolvedAt := none, resolvedBy := none, expiresAt := none }

/-- A critical-severity alert. -/
def exCriticalAlert : Alert :=
  { exMediumAlert with id := "a3", severity := "critical" }

/-- An expired active alert (expiry 50, inspected at a later time). -/
def exExpiredAlert : Alert :=
  { exMediumAlert with id := "a4", expiresAt := some 50 }

/-- A worker whose source kind no capture branch recognizes: every
`captureFrame` call on it fails. -/
def exBadWorker : WorkerState :=
  { streamData := { name := "W", sourceType := "bogus", fps := 10,
                    resolutionW := 640, resolutionH := 480,
                    aiModels := [{ modelType := "object-detection", isActive := true }] },
    isRunning := true, frameCount := 0, lastFrameTime := none,
    processingInterval := none, messages := [] }

/-- A not-yet-started worker configured with `fps = 0` — the
configuration the specification says must be rejected. -/
def exZeroFpsWorker : WorkerState :=
  { streamData := { name := "Z", sourceType := "rtsp", fps := 0,
                    resolutionW := 640, resolutionH := 480, aiModels := [] },
    isRunning := false, frameCount := 0, lastFrameTime := none,
    processingInterval := none, messages := [] }

/-- A not-yet-started worker with a valid 10 fps configuration. -/
def exGoodWorker : WorkerState :=
  { exZeroFpsWorker with
      streamData := { exZeroFpsWorker.streamData with name := "G", fps := 10 } }

/-- A registry entry whose worker last produced a frame at t=0. -/
def exStaleInfo : ActiveInfo :=
  { stream := { exStream with status := "active" }, startTime := 0,
    frameCount := 5, lastFrame := some 0 }

/-- A service with one active feed whose heartbeat is stale at t=31000. -/
def exStaleService : ServiceState :=
  { workers := ["f1"], activeStreams := [("f1", exStaleInfo)],
    db := [{ exStream with status := "active" }] }

/-- The stale service after one health sweep at t=31000 persisted its
uptime updates (the registry, including `lastFrame`, is untouched by the
sweep). -/
def exStaleService2 : ServiceState :=
  { exStaleService with db := (monitorActiveStreams exStaleService [] 31000).1 }

/-- The alert collection after two consecutive health sweeps over the
stale feed, at t=31000 and t=32000. -/
def exSweepAlerts : List Alert :=
  (monitorActiveStreams exStaleService2 (monitorActiveStreams exStaleService [] 31000).2 32000).2

/-! ## Helper lemmas -/

/-- The pre-save middleware touches only `expiresAt`: both steps leave
every other field unchanged. -/
theorem presaveAlert_fields (a : Alert) (now : Nat) :
    (presaveAlert a now).status = a.status
    ∧ (presaveAlert a now).title = a.title
    ∧ (presaveAlert a now).streamId = a.streamId
    ∧ (presaveAlert a now).severity = a.severity
    ∧ (presaveAlert a now).type = a.type := by
  unfold presaveAlert presaveCritical presaveDefaultExpiry
  split <;> split <;> simp_all

theorem presaveAlert_status (a : Alert) (now : Nat) :
    (presaveAlert a now).status = a.status := (presaveAlert_fields a now).1

theorem presaveAlert_title (a : Alert) (now : Nat) :
    (presaveAlert a now).title = a.title := (presaveAlert_fields a now).2.1

theorem presaveAlert_streamId (a : Alert) (now : Nat) :
    (presaveAlert a now).streamId = a.streamId := (presaveAlert_fields a now).2.2.1

theorem presaveAlert_severity (a : Alert) (now : Nat) :
    (presaveAlert a now).severity = a.severity := (presaveAlert_fields a now).2.2.2.1

theorem presaveAlert_type (a : Alert) (now : Nat) :
    (presaveAlert a now).type = a.type := (presaveAlert_fields a now).2.2.2.2

/-- Appending one document changes the per-key active count by 1 when
the document matches the key and is active, else by 0. -/
theorem countActiveAlerts_append_one (db : List Alert) (x : Alert) (sid ti : String) :
    countActiveAlerts (db ++ [x]) sid ti
      = countActiveAlerts db sid ti
        + (if x.streamId == sid && x.title == ti && x.status == "active" then 1 else 0) := by
  simp only [countActiveAlerts, List.filter_append, List.length_append]
  cases h : (x.streamId == sid && x.title == ti && x.status == "active") <;>
    simp [List.filter_cons, h]

/-- A key absent from the registry has active-entry count 0. -/
theorem countActiveEntries_of_lookup_none (reg : List (String × ActiveInfo)) (id : String)
    (h : lookupActive reg id = none) : countActiveEntries reg id = 0 := by
  unfold lookupActive at h
  have hf : reg.find? (fun e => e.1 == id) = none := by
    cases hE : reg.find? (fun e => e.1 == id) with
    | none => rfl
    | some e => rw [hE] at h; simp at h
  have := List.find?_eq_none.mp hf
  unfold countActiveEntries
  rw [List.length_eq_zero]
  exact List.filter_eq_nil_iff.mpr this

/-- Setting the first matching stream status rewrites exactly the
document `findById` returns. -/
theorem findStream_setStreamStatusFirst (db : List StreamRec) (id status : String) :
    findStream (setStreamStatusFirst db id status) id
      = (findStream db id).map (fun st => { st with status := status }) := by
  induction db with
  | nil => rfl
  | cons st rest ih =>
    by_cases h : st.id = id
    · simp [setStreamStatusFirst, findStream, h]
    · simp only [setStreamStatusFirst, if_neg h]
      simp only [findStream, List.find?_cons] at ih ⊢
      have hb : (st.id == id) = false := by simpa using h
      simp [hb, ih]

/-- The health sweep appends exactly one medium-severity
"Stream Unresponsive" warning per stale registry entry, in registry
order. -/
theorem monitor_foldl_alerts (now : Nat) (l : List (String × ActiveInfo))
    (db : List StreamRec) (alerts : List Alert) :
    (l.foldl (monitorStep now) (db, alerts)).2
      = alerts ++ ((l.filter (fun e => staleAt now e.2)).map
          (fun e => presaveAlert
            { systemAlertDoc e.1 "warning" "Stream Unresponsive"
                ("Stream " ++ e.2.stream.name ++ " has not processed frames in 30 seconds")
                "medium" with timestamp := now } now)) := by
  induction l generalizing db alerts with
  | nil => simp
  | cons e l ih =>
    simp only [List.foldl_cons, List.filter_cons]
    cases hst : staleAt now e.2 with
    | false => simp [monitorStep, hst, ih]
    | true =>
      simp [monitorStep, hst, mkUnresponsiveAlert, createSystemAlert, saveNewAlert, ih]

/-! ## Claim theorems -/

/-- C1: when the drain slot is free and the job queue is non-empty, one
tick of `startQueueProcessing` removes exactly one job and hands it to
execution, and that job has the highest rank under
critical > high > medium > low with ties broken by earliest submission
timestamp; priorities outside the four named values rank as medium. -/
theorem drainTick_executes_one_highest_priority_job (s : AIServiceState)
    (hp : s.isProcessing = false) (hq : s.processingQueue ≠ []) :
    ∃ j rest,
      drainTick s = ({ s with processingQueue := rest }, some j)
      ∧ (j :: rest).Perm s.processingQueue
      ∧ rest.length + 1 = s.processingQueue.length
      ∧ j ∈ s.processingQueue
      ∧ (∀ x ∈ s.processingQueue, effPriority x.priority ≤ effPriority j.priority)
      ∧ (∀ x ∈ s.processingQueue,
          effPriority x.priority = effPriority j.priority → j.timestamp ≤ x.timestamp)
      ∧ (∀ p : String, p ≠ "critical" → p ≠ "high" → p ≠ "medium" → p ≠ "low" →
          effPriority p = effPriority "medium") := by
  have hperm := List.perm_insertionSort jobLE s.processingQueue
  have hsort := List.sorted_insertionSort jobLE s.processingQueue
  cases hE : s.processingQueue.insertionSort jobLE with
  | nil =>
    rw [hE] at hperm
    exact absurd (List.perm_nil.mp hperm.symm) hq
  | cons j rest =>
    rw [hE] at hperm hsort
    have hmem : ∀ x ∈ s.processingQueue, x = j ∨ jobLE j x := by
      intro x hx
      rcases List.mem_cons.mp (hperm.mem_iff.mpr hx) with h | h
      · exact Or.inl h
      · exact Or.inr (List.rel_of_sorted_cons hsort x h)
    have hempty : s.processingQueue.isEmpty = false := by
      cases h : s.processingQueue with
      | nil => exact absurd h hq
      | cons a l => rfl
    refine ⟨j, rest, ?_, hperm, ?_, ?_, ?_, ?_, ?_⟩
    · simp [drainTick, hp, hempty, hE]
    · simpa using hperm.length_eq
    · exact hperm.mem_iff.mp (List.mem_cons_self j rest)
    · intro x hx
      rcases hmem x hx with rfl | hle
      · exact Nat.le_refl _
      · rcases hle with h | ⟨e, _⟩
        · exact Nat.le_of_lt h
        · exact Nat.le_of_eq e.symm
    · intro x hx he
      rcases hmem x hx with rfl | hle
      · exact Nat.le_refl _
      · rcases hle with h | ⟨_, t⟩
        · rw [he] at h
          exact absurd h (Nat.lt_irrefl _)
        · exact t
    · intro p h1 h2 h3 h4
      simp [effPriority, h1, h2, h3, h4]

/-- C1 witness: a queue that received [low, critical, medium] in that
order satisfies the hypotheses, and the theorem applies. -/
theorem drainTick_priority_witness :
    exAIState.isProcessing = false ∧ exAIState.processingQueue ≠ []
    ∧ (∃ j rest,
        drainTick exAIState = ({ exAIState with processingQueue := rest }, some j)
        ∧ (j :: rest).Perm exAIState.processingQueue
        ∧ rest.length + 1 = exAIState.processingQueue.length
        ∧ j ∈ exAIState.processingQueue
        ∧ (∀ x ∈ exAIState.processingQueue, effPriority x.priority ≤ effPriority j.priority)
        ∧ (∀ x ∈ exAIState.processingQueue,
            effPriority x.priority = effPriority j.priority → j.timestamp ≤ x.timestamp)
        ∧ (∀ p : String, p ≠ "critical" → p ≠ "high" → p ≠ "medium" → p ≠ "low" →
            effPriority p = effPriority "medium")) :=
  ⟨rfl, by decide,
    drainTick_executes_one_highest_priority_job exAIState rfl (by decide)⟩

/-- C2 counterexample: with feed `"f1"` already active, a second
`startStream` call does not return an `AlreadyActive` error — it
returns the stream as a success and leaves the whole service state
(in particular the registry) unchanged. -/
theorem startStream_second_call_returns_ok :
    ((startStream exServiceStarted 1 "f1").2).isOk = true
    ∧ (startStream exServiceStarted 1 "f1").1 = exServiceStarted := by
  constructor <;> decide

/-- C2 (amended): a second `startStream` for an already-active feed with
a persisted record is a silent no-op success (warning logged, the
stream returned, no error raised), the registry is unchanged by that
call, and `startStream` preserves the at-most-one-registry-entry-per-id
invariant. -/
theorem startStream_already_active_noop (s : ServiceState) (now : Nat) (id : String)
    (st : StreamRec) (hdb : findStream s.db id = some st)
    (hact : (lookupActive s.activeStreams id).isSome = true) :
    startStream s now id = (s, .ok st)
    ∧ (∀ s0 n i, countActiveEntries s0.activeStreams i ≤ 1 →
        countActiveEntries ((startStream s0 n i).1).activeStreams i ≤ 1) := by
  constructor
  · simp [startStream, hdb, hact]
  · intro s0 n i h1
    unfold startStream
    cases hf : findStream s0.db i with
    | none => simpa using h1
    | some st0 =>
      by_cases ha : (lookupActive s0.activeStreams i).isSome
      · simpa [ha] using h1
      · have h0 : countActiveEntries s0.activeStreams i = 0 :=
          countActiveEntries_of_lookup_none s0.activeStreams i
            (Option.not_isSome_iff_eq_none.mp ha)
        simp only [ha, Bool.false_eq_true, if_false]
        unfold countActiveEntries at h0 ⊢
        rw [List.filter_append, List.length_eq_zero.mp h0]
        simp

/-- C2 witness: the concrete one-feed service started twice satisfies
the hypotheses, and the theorem applies. -/
theorem startStream_already_active_witness :
    startStream exServiceStarted 1 "f1"
      = (exServiceStarted, .ok { exStream with status := "active" })
    ∧ (∀ s0 n i, countActiveEntries s0.activeStreams i ≤ 1 →
        countActiveEntries ((startStream s0 n i).1).activeStreams i ≤ 1) :=
  startStream_already_active_noop exServiceStarted 1 "f1"
    { exStream with status := "active" } (by decide) (by decide)

set_option maxRecDepth 8000 in
/-- C3 counterexample: with the queue already holding 1000 jobs (the
capacity the specification names), submitting one more is not rejected
with `QueueFull` — it is accepted as `queued` and the queue grows to
1001 entries. -/
theorem processStream_no_queueFull_at_capacity :
    ((processStream exAIStateFull exDb "f1" "object-detection" 5).2).isOk = true
    ∧ ((processStream exAIStateFull exDb "f1" "object-detection" 5).1).processingQueue.length
        = 1001 := by
  constructor <;> decide

/-- C3 (amended): `processStream` has no capacity bound: whenever the
model id, stream and source type validate, the job is appended to the
queue unconditionally — every earlier-submitted job stays in place and
the caller receives a `queued` receipt, regardless of the queue length. -/
theorem processStream_always_enqueues (s : AIServiceState) (db : List StreamRec)
    (sid mt : String) (now : Nat) (m : ModelDef) (st : StreamRec)
    (hm : s.models.find? (fun x => x.id == mt) = some m)
    (hst : findStream db sid = some st)
    (hsup : st.sourceType ∈ m.supportedTypes) :
    ((processStream s db sid mt now).1).processingQueue
        = s.processingQueue ++ [mkQueueItem sid mt st now]
    ∧ (processStream s db sid mt now).2
        = .ok { queueId := (mkQueueItem sid mt st now).id, status := "queued",
                estimatedTime := estimateProcessingTime mt } := by
  unfold processStream
  rw [hm, hst]
  simp [hsup]

/-- C3 witness: a concrete valid submission against the one-stream
database satisfies the hypotheses, and the theorem applies. -/
theorem processStream_always_enqueues_witness :
    ((processStream exAIState exDb "f1" "object-detection" 5).1).processingQueue
        = exAIState.processingQueue ++ [mkQueueItem "f1" "object-detection" exStream 5]
    ∧ (processStream exAIState exDb "f1" "object-detection" 5).2
        = .ok { queueId := (mkQueueItem "f1" "object-detection" exStream 5).id,
                status := "queued",
                estimatedTime := estimateProcessingTime "object-detection" } :=
  processStream_always_enqueues exAIState exDb "f1" "object-detection" 5
    { id := "object-detection", supportedTypes := allSourceTypes,
      lastUsed := none, processingCount := 0 }
    exStream (by decide) (by decide) (by decide)

/-- C4 counterexample: two outcomes from feed `"f1"` with the same alert
title, processed through `createDetectionAlert` while the first alert is
active, leave TWO active alerts for the (feed, title) pair — a duplicate
is created, nothing is updated in place. -/
theorem detection_alert_duplicated :
    countActiveAlerts exAlertsTwice "f1" "1 objects detected" = 2 := by
  decide

/-- C4 (amended): detection alerts are never deduplicated —
`createDetectionAlert` always appends a fresh active alert, so two
same-title outcomes from one feed raise the active count for that
(feed, title) pair by exactly 2; only the `checkForAlerts` system-alert
path deduplicates, and it does so by skipping creation, leaving the
existing active alert byte-for-byte unchanged (no refresh). -/
theorem createDetectionAlert_never_dedups
    (db : List Alert) (sid mt1 mt2 : String) (d1 d2 : List Detection) (t1 t2 : Nat)
    (hlen : d2.length = d1.length)
    (db2 : List Alert) (st : StreamRec) (now : Nat) (a : Alert)
    (hex : findActiveAlert db2 st.id "warning" "Stream Unresponsive" = some a) :
    countActiveAlerts
        (createDetectionAlert (createDetectionAlert db sid d1 mt1 t1) sid d2 mt2 t2)
        sid (toString d1.length ++ " objects detected")
      = countActiveAlerts db sid (toString d1.length ++ " objects detected") + 2
    ∧ checkStreamUnresponsive db2 st now = db2 := by
  constructor
  · have key : ∀ (d : List Detection) (mt : String) (t : Nat) (dbx : List Alert),
        d.length = d1.length →
        countActiveAlerts (createDetectionAlert dbx sid d mt t) sid
            (toString d1.length ++ " objects detected")
          = countActiveAlerts dbx sid (toString d1.length ++ " objects detected") + 1 := by
      intro d mt t dbx hd
      unfold createDetectionAlert saveNewAlert
      rw [countActiveAlerts_append_one]
      have hx : ((presaveAlert (detectionAlertDoc sid d mt t) t).streamId == sid
          && (presaveAlert (detectionAlertDoc sid d mt t) t).title
              == toString d1.length ++ " objects detected"
          && (presaveAlert (detectionAlertDoc sid d mt t) t).status == "active") = true := by
        simp [presaveAlert_streamId, presaveAlert_title, presaveAlert_status,
          detectionAlertDoc, hd]
      rw [hx]
      simp
    rw [key d2 mt2 t2 _ hlen, key d1 mt1 t1 db rfl]
  · unfold checkStreamUnresponsive
    cases st.lastProcessed with
    | none => rfl
    | some lp => simp [hex]

/-- C4 witness: the concrete duplicate pair and the concrete skip case
satisfy the hypotheses, and the theorem applies. -/
theorem createDetectionAlert_never_dedups_witness :
    countActiveAlerts
        (createDetectionAlert (createDetectionAlert [] "f1" exDetections "object-detection" 10)
          "f1" exDetections "object-detection" 20)
        "f1" (toString exDetections.length ++ " objects detected")
      = countActiveAlerts [] "f1" (toString exDetections.length ++ " objects detected") + 2
    ∧ checkStreamUnresponsive exUnrespDb exActiveStream 400000 = exUnrespDb :=
  createDetectionAlert_never_dedups [] "f1" "object-detection" "object-detection"
    exDetections exDetections 10 20 rfl exUnrespDb exActiveStream 400000
    (presaveAlert { systemAlertDoc "f1" "warning" "Stream Unresponsive" "m" "medium"
        with timestamp := 1 } 1)
    (by decide)

/-- C5 counterexample: acknowledging a resolved alert does not fail with
`InvalidTransition` and does not leave the alert unchanged — the status
silently moves back to `acknowledged`, so `resolved` is not terminal. -/
theorem resolved_alert_reacknowledged :
    (acknowledgeAlert exResolvedAlert "bob" 5).status = "acknowledged" := by
  decide

/-- C5 (amended): the acknowledge/resolve/dismiss operations perform no
validation of the current status: each unconditionally overwrites the
status with its target (for every starting status, including `resolved`
and `dismissed`), no `InvalidTransition` error exists, and the bulk
routes likewise force the target status onto every matched alert. -/
theorem alert_transitions_unvalidated (a : Alert) (who : String) (now : Nat)
    (db : List Alert) (ids : List String) :
    (acknowledgeAlert a who now).status = "acknowledged"
    ∧ (resolveAlert a who now).status = "resolved"
    ∧ (dismissAlert a now).status = "dismissed"
    ∧ (∀ b ∈ db, b.id ∈ ids → ∃ b2 ∈ bulkAcknowledge db ids who now,
        b2.id = b.id ∧ b2.status = "acknowledged") := by
  refine ⟨?_, ?_, ?_, ?_⟩
  · rw [acknowledgeAlert, presaveAlert_status]
  · rw [resolveAlert, presaveAlert_status]
  · rw [dismissAlert, presaveAlert_status]
  · intro b hb hid
    unfold bulkAcknowledge
    refine ⟨_, List.mem_map_of_mem _ hb, ?_⟩
    simp [hid]

/-- C5 witness: the theorem applied to the concrete resolved alert. -/
theorem alert_transitions_unvalidated_witness :
    (acknowledgeAlert exResolvedAlert "ops" 9).status = "acknowledged"
    ∧ (resolveAlert exResolvedAlert "ops" 9).status = "resolved"
    ∧ (dismissAlert exResolvedAlert 9).status = "dismissed"
    ∧ (∀ b ∈ [exResolvedAlert], b.id ∈ ["a1"] →
        ∃ b2 ∈ bulkAcknowledge [exResolvedAlert] ["a1"] "ops" 9,
          b2.id = b.id ∧ b2.status = "acknowledged") :=
  alert_transitions_unvalidated exResolvedAlert "ops" 9 [exResolvedAlert] ["a1"]

/-- C6 counterexample: a worker whose every capture fails runs three
consecutive failing ticks without emitting any message (so no `error`
event) and without leaving the running state (so no transition to
`error` after 3 consecutive failures). -/
theorem capture_failures_no_error_state :
    (runTicks exBadWorker [0, 1, 2]).isRunning = true
    ∧ (runTicks exBadWorker [0, 1, 2]).messages = []
    ∧ (runTicks exBadWorker [0, 1, 2]).frameCount = 3 := by
  refine ⟨?_, ?_, ?_⟩ <;> decide

/-- C6 (amended): a capture failure is silently swallowed —
`captureFrame` catches the error and returns null, `processFrame` then
only increments the frame counter: no error event is emitted, no
consecutive-failure counter exists, and no number of consecutive capture
failures stops the worker or transitions it to an error state. -/
theorem capture_failures_swallowed (w : WorkerState) (ticks : List Nat)
    (hrun : w.isRunning = true)
    (hbad : w.streamData.sourceType ∉ allSourceTypes) :
    (runTicks w ticks).isRunning = true
    ∧ (runTicks w ticks).messages = w.messages
    ∧ (runTicks w ticks).lastFrameTime = w.lastFrameTime
    ∧ (runTicks w ticks).frameCount = w.frameCount + ticks.length
    ∧ (runTicks w ticks).streamData = w.streamData := by
  induction ticks generalizing w with
  | nil => simp [runTicks, hrun]
  | cons t ts ih =>
    have hstep : processFrame w t = { w with frameCount := w.frameCount + 1 } := by
      unfold processFrame
      rw [hrun]
      simp [captureFrame, hbad]
    have hrw : runTicks w (t :: ts) = runTicks { w with frameCount := w.frameCount + 1 } ts := by
      unfold runTicks
      rw [List.foldl_cons, hstep]
    obtain ⟨h1, h2, h3, h4, h5⟩ :=
      ih (w := { w with frameCount := w.frameCount + 1 }) hrun hbad
    rw [hrw]
    refine ⟨h1, h2, h3, ?_, h5⟩
    rw [h4]
    simp [Nat.add_assoc, Nat.add_comm 1 ts.length]

/-- C6 witness: the failing worker after three ticks satisfies the
hypotheses, and the theorem applies. -/
theorem capture_failures_swallowed_witness :
    (runTicks exBadWorker [0, 1, 2]).isRunning = true
    ∧ (runTicks exBadWorker [0, 1, 2]).messages = exBadWorker.messages
    ∧ (runTicks exBadWorker [0, 1, 2]).lastFrameTime = exBadWorker.lastFrameTime
    ∧ (runTicks exBadWorker [0, 1, 2]).frameCount = exBadWorker.frameCount + 3
    ∧ (runTicks exBadWorker [0, 1, 2]).streamData = exBadWorker.streamData :=
  capture_failures_swallowed exBadWorker [0, 1, 2] rfl (by decide)

/-- C7 counterexample: a feed whose last heartbeat is 31 time units old
(threshold 30) gets one alert per health-sweep tick — two consecutive
sweeps produce two alerts — and each alert is a medium-severity warning,
not a critical alert. -/
theorem stale_feed_alert_per_sweep :
    exSweepAlerts.length = 2
    ∧ exSweepAlerts.all (fun a => a.severity == "medium" && a.type == "warning"
        && a.title == "Stream Unresponsive" && a.status == "active") = true := by
  constructor <;> decide

/-- C7 (amended): every health sweep appends one medium-severity
"Stream Unresponsive" warning alert for every feed whose last frame is
more than 30000 ms old — one alert per sweep tick, with no per-episode
latch and no critical escalation. -/
theorem health_sweep_one_alert_per_stale_feed (s : ServiceState)
    (alerts : List Alert) (now : Nat) :
    (monitorActiveStreams s alerts now).2
      = alerts ++ ((s.activeStreams.filter (fun e => staleAt now e.2)).map
          (fun e => presaveAlert
            { systemAlertDoc e.1 "warning" "Stream Unresponsive"
                ("Stream " ++ e.2.stream.name ++ " has not processed frames in 30 seconds")
                "medium" with timestamp := now } now))
    ∧ (∀ sid msg : String, ∀ n2 : Nat,
        (presaveAlert { systemAlertDoc sid "warning" "Stream Unresponsive" msg "medium"
            with timestamp := n2 } n2).severity = "medium"
        ∧ (presaveAlert { systemAlertDoc sid "warning" "Stream Unresponsive" msg "medium"
            with timestamp := n2 } n2).type = "warning"
        ∧ (presaveAlert { systemAlertDoc sid "warning" "Stream Unresponsive" msg "medium"
            with timestamp := n2 } n2).status = "active") := by
  constructor
  · exact monitor_foldl_alerts now s.activeStreams s.db alerts
  · intro sid msg n2
    refine ⟨?_, ?_, ?_⟩ <;>
      simp [presaveAlert_severity, presaveAlert_type, presaveAlert_status, systemAlertDoc]

/-- C7 witness: the theorem applied to the concrete stale service. -/
theorem health_sweep_witness :
    (monitorActiveStreams exStaleService [] 31000).2
      = [] ++ ((exStaleService.activeStreams.filter (fun e => staleAt 31000 e.2)).map
          (fun e => presaveAlert
            { systemAlertDoc e.1 "warning" "Stream Unresponsive"
                ("Stream " ++ e.2.stream.name ++ " has not processed frames in 30 seconds")
                "medium" with timestamp := 31000 } 31000))
    ∧ (∀ sid msg : String, ∀ n2 : Nat,
        (presaveAlert { systemAlertDoc sid "warning" "Stream Unresponsive" msg "medium"
            with timestamp := n2 } n2).severity = "medium"
        ∧ (presaveAlert { systemAlertDoc sid "warning" "Stream Unresponsive" msg "medium"
            with timestamp := n2 } n2).type = "warning"
        ∧ (presaveAlert { systemAlertDoc sid "warning" "Stream Unresponsive" msg "medium"
            with timestamp := n2 } n2).status = "active") :=
  health_sweep_one_alert_per_stale_feed exStaleService [] 31000

/-- C8 counterexample: starting a worker configured with `fps = 0` does
not fail with a `ConfigError` — the worker transitions to running and
announces `active`; the scheduled period is the degenerate JS quotient
(`Infinity`, modelled as `none`). -/
theorem start_accepts_zero_fps :
    (startWorker exZeroFpsWorker 7).isRunning = true
    ∧ (startWorker exZeroFpsWorker 7).messages = [.statusUpdate "active"]
    ∧ (startWorker exZeroFpsWorker 7).processingInterval = none := by
  refine ⟨?_, ?_, ?_⟩ <;> decide

/-- C8 (amended): `StreamWorker.start` performs no validation of the
configuration: for every config — fps ≤ 0 and non-positive resolutions
included — it sets the running flag, posts `status_update: active`, and
schedules the acquisition tick at the raw JS quotient `1000 / fps`
(which equals `1000/fps` ms exactly when fps ≠ 0). -/
theorem startWorker_no_validation (w : WorkerState) (now : Nat) :
    (startWorker w now).isRunning = true
    ∧ (startWorker w now).messages = w.messages ++ [.statusUpdate "active"]
    ∧ (startWorker w now).lastFrameTime = some now
    ∧ (startWorker w now).processingInterval = jsDivQ 1000 w.streamData.fps
    ∧ (w.streamData.fps ≠ 0 →
        (startWorker w now).processingInterval = some (1000 / w.streamData.fps)) := by
  refine ⟨rfl, rfl, rfl, rfl, ?_⟩
  intro h
  simp [startWorker, jsDivQ, h]

/-- C8 witness: the theorem applied to the valid 10 fps worker, with the
non-zero-fps hypothesis discharged. -/
theorem startWorker_no_validation_witness :
    (startWorker exGoodWorker 7).isRunning = true
    ∧ (startWorker exGoodWorker 7).processingInterval
        = some (1000 / exGoodWorker.streamData.fps) :=
  ⟨(startWorker_no_validation exGoodWorker 7).1,
   (startWorker_no_validation exGoodWorker 7).2.2.2.2 (by decide)⟩

/-- C9: the pre-save middleware stamps non-critical alerts with no
explicit expiry with `creation + 24h`, forces null expiry on critical
alerts (they never expire automatically, since a null expiry never
matches the sweep), and the sweep dismisses exactly the
`active`/`acknowledged` alerts whose expiry has passed, leaving every
other document unchanged. -/
theorem alert_expiry_policy (a : Alert) (now : Nat) (db : List Alert)
    (i : Nat) (hi : i < db.length) :
    (a.expiresAt = none → a.severity ≠ "critical" →
      (presaveAlert a now).expiresAt = some (now + dayMs))
    ∧ (a.severity = "critical" → (presaveAlert a now).expiresAt = none)
    ∧ (a.expiresAt = none → expiredNow a now = false)
    ∧ (cleanExpiredAlerts db now).length = db.length
    ∧ (cleanExpiredAlerts db now)[i]?
        = some (if expiredNow db[i] now
                then { db[i] with status := "dismissed" } else db[i]) := by
  refine ⟨?_, ?_, ?_, ?_, ?_⟩
  · intro h1 h2
    simp [presaveAlert, presaveDefaultExpiry, presaveCritical, h1, h2]
  · intro h
    simp [presaveAlert, presaveDefaultExpiry, presaveCritical, h]
  · intro h
    simp [expiredNow, h]
  · simp [cleanExpiredAlerts]
  · simp [cleanExpiredAlerts, List.getElem?_map, List.getElem?_eq_getElem hi]

/-- C9 witness: a concrete medium alert gains a 24h expiry, a concrete
critical alert keeps a null expiry, and the sweep dismisses a concrete
expired active alert. -/
theorem alert_expiry_policy_witness :
    (presaveAlert exMediumAlert 0).expiresAt = some (0 + dayMs)
    ∧ (presaveAlert exCriticalAlert 0).expiresAt = none
    ∧ (cleanExpiredAlerts [exExpiredAlert] 100)[0]?
        = some (if expiredNow [exExpiredAlert][0] 100
                then { [exExpiredAlert][0] with status := "dismissed" }
                else [exExpiredAlert][0]) :=
  ⟨(alert_expiry_policy exMediumAlert 0 [exExpiredAlert] 0 (by decide)).1 rfl (by decide),
   (alert_expiry_policy exCriticalAlert 0 [exExpiredAlert] 0 (by decide)).2.1 rfl,
   (alert_expiry_policy exExpiredAlert 100 [exExpiredAlert] 0 (by decide)).2.2.2.2⟩

/-- C10: `stopStream` accepts every feed id — started or not, persisted
or not — and returns `true`: the worker handle and registry entry are
removed when present, the persisted status becomes `inactive` when the
record exists, and the stream collection is untouched otherwise. -/
theorem stopStream_always_succeeds (s : ServiceState) (id : String) :
    (stopStream s id).2 = true
    ∧ lookupActive ((stopStream s id).1).activeStreams id = none
    ∧ id ∉ ((stopStream s id).1).workers
    ∧ (findStream s.db id = none → ((stopStream s id).1).db = s.db)
    ∧ (∀ st, findStream s.db id = some st →
        findStream ((stopStream s id).1).db id
          = some { st with status := "inactive" }) := by
  have hreg : ∀ reg : List (String × ActiveInfo),
      lookupActive (reg.filter (fun e => e.1 ≠ id)) id = none := by
    intro reg
    unfold lookupActive
    have hf : (reg.filter (fun e => e.1 ≠ id)).find? (fun e => e.1 == id) = none := by
      rw [List.find?_eq_none]
      intro e he
      have h2 := (List.mem_filter.mp he).2
      simp at h2 ⊢
      exact h2
    rw [hf]
    rfl
  have hw : id ∉ s.workers.filter (fun w => w ≠ id) := by
    intro h
    have := (List.mem_filter.mp h).2
    simp at this
  refine ⟨?_, ?_, ?_, ?_, ?_⟩
  · unfold stopStream
    cases findStream s.db id <;> rfl
  · unfold stopStream
    cases findStream s.db id <;> exact hreg s.activeStreams
  · unfold stopStream
    cases findStream s.db id <;> exact hw
  · intro h
    unfold stopStream
    rw [h]
  · intro st h
    unfold stopStream
    rw [h]
    simp [findStream_setStreamStatusFirst, h]

/-- C10 witness: stopping the concrete started feed and stopping a feed
id that was never registered both succeed. -/
theorem stopStream_always_succeeds_witness :
    (stopStream exServiceStarted "f1").2 = true
    ∧ findStream ((stopStream exServiceStarted "f1").1).db "f1"
        = some { { exStream with status := "active" } with status := "inactive" }
    ∧ (stopStream exService "ghost").2 = true
    ∧ ((stopStream exService "ghost").1).db = exService.db :=
  ⟨(stopStream_always_succeeds exServiceStarted "f1").1,
   (stopStream_always_succeeds exServiceStarted "f1").2.2.2.2
     { exStream with status := "active" } (by decide),
   (stopStream_always_succeeds exService "ghost").1,
   (stopStream_always_succeeds exService "ghost").2.2.2.1 (by decide)⟩

end VMS
